import Mathlib

/-!
Verification development for the hybrid retrieval engine of the
IA_Postgresql repository (`src/utils/search.py`, `src/ai/embeddings.py`,
`web_app.py`).

Modelling conventions:
* Python floats are modelled as exact rationals (`ℚ`); the constants
  `0.1`, `1.1`, `1.2` of the scoring code are the rationals `1/10`,
  `11/10`, `12/10`.
* Python `datetime` values are modelled as rational timestamps.
* Python dictionaries with insertion order are modelled as association
  lists (`dictInsert` replaces in place, appends new keys at the end).
* Fallible I/O collaborators (database, embedding provider) are fields of
  an explicit environment record returning `Except String`; a Python
  `try/except` block is a `match` on that result.
* Python `hash` is process-seeded and not reproducible; every definition
  that uses it is parametrised by an arbitrary `hashFn : String → Int`.
-/

namespace Mamute

/-- Content types of `search.py` (`class ContentType(Enum)`). -/
inductive ContentType
  | document
  | conversation
  | query_result
  | table_data
  | log_entry
deriving DecidableEq, Repr

/-- The `.value` string of each `ContentType` member. -/
def ContentType.value : ContentType → String
  | .document => ("document")
  | .conversation => ("conversation")
  | .query_result => ("query_result")
  | .table_data => ("table_data")
  | .log_entry => ("log_entry")

/-- Search modes of `search.py` (`class SearchType(Enum)`). -/
inductive SearchType
  | semantic
  | keyword
  | sql
  | hybrid
deriving DecidableEq, Repr

/-- The `.value` string of each `SearchType` member. -/
def SearchType.value : SearchType → String
  | .semantic => ("semantic")
  | .keyword => ("keyword")
  | .sql => ("sql")
  | .hybrid => ("hybrid")

/-- A database cell value (Python is dynamically typed; the columns read by
the search engine hold strings, numbers, datetimes and JSON dictionaries). -/
inductive DBVal
  | str (v : String)
  | num (x : ℚ)
  | time (ts : ℚ)
  | dict (kv : List (String × String))
deriving DecidableEq, Repr

/-- A database row: column name to nullable value, as returned by
`db_manager.execute_query`. -/
abbrev Row := List (String × Option DBVal)

/-- The `metadata` field of a `SearchResult`: either a JSON-ish dictionary
coming from a `metadata` column, or the `{"original_query": ..., "row_data": ...}`
dictionary built by `_sql_search`. -/
inductive MetaVal
  | dict (kv : List (String × String))
  | sqlmeta (original_query : String) (row_data : Row)
deriving DecidableEq, Repr

/-- `@dataclass SearchResult` of `search.py`. -/
structure SearchResult where
  id : String
  title : String
  content : String
  content_type : ContentType
  similarity : ℚ
  source : Option String := none
  category : Option String := none
  timestamp : Option ℚ := none
  metadata : MetaVal := MetaVal.dict []
deriving DecidableEq, Repr

/-- `@dataclass SearchFilter` of `search.py`, defaults included
(`min_similarity = 0.5`, `max_results = 20`). -/
structure SearchFilter where
  content_type : Option ContentType := none
  category : Option String := none
  date_from : Option ℚ := none
  date_to : Option ℚ := none
  source : Option String := none
  min_similarity : ℚ := 1/2
  max_results : Int := 20
deriving DecidableEq, Repr

/-! ### String helpers (computable models of the Python string operations) -/

/-- Python `str.upper`, character by character. -/
def upperStr (s : String) : String := String.mk (s.data.map Char.toUpper)

/-- Python `str.lower`, character by character. -/
def lowerStr (s : String) : String := String.mk (s.data.map Char.toLower)

/-- Python `str.strip()`: remove leading and trailing whitespace. -/
def stripStr (s : String) : String :=
  String.mk (((s.data.dropWhile Char.isWhitespace).reverse.dropWhile Char.isWhitespace).reverse)

/-- Substring test: does `pat` occur somewhere in `s`
(Python `pat in s`)? -/
def isSubstr (pat s : List Char) : Bool :=
  (List.range (s.length + 1)).any (fun i => pat.isPrefixOf (s.drop i))

/-- Fuelled scanner counting non-overlapping occurrences of `pat`
left-to-right (the recursion consumes at least one character per step, so
`text.length` fuel is always enough). -/
def countOccFuel (pat : List Char) : Nat → List Char → Nat
  | 0, _ => 0
  | _, [] => 0
  | fuel+1, c :: rest =>
    if pat.isPrefixOf (c :: rest) then 1 + countOccFuel pat fuel (List.drop (pat.length - 1) rest)
    else countOccFuel pat fuel rest

/-- Python `text.count(pat)`: number of non-overlapping occurrences
(`"".count` conventions included: an empty pattern counts `len + 1`). -/
def countOcc (text pat : String) : Nat :=
  if pat.data.isEmpty then text.data.length + 1
  else countOccFuel pat.data text.data.length text.data

/-- Python `min` on rationals (models `min(1.0, x)` of the scoring code). -/
def ratMin (a b : ℚ) : ℚ := if a ≤ b then a else b

/-- Python list slicing `l[:m]`, including the negative-bound convention
(`l[:m]` with `m < 0` keeps all but the last `|m|` elements). -/
def pythonTake {α : Type} (l : List α) (m : Int) : List α :=
  if 0 ≤ m then l.take m.toNat else l.take (l.length - min l.length m.natAbs)

/-! ### Insertion-ordered dictionaries (Python `dict` as association list) -/

/-- Lookup in an association list (Python `d[k]` / `k in d`). -/
def lookupA {α : Type} (d : List (String × α)) (k : String) : Option α :=
  match d with
  | [] => none
  | p :: rest => if p.1 = k then some p.2 else lookupA rest k

/-- Python `d[k] = v`: replace in place if the key exists (keeping its
position), otherwise append at the end. -/
def dictInsert {α : Type} (d : List (String × α)) (k : String) (v : α) : List (String × α) :=
  match d with
  | [] => [(k, v)]
  | p :: rest => if p.1 = k then (k, v) :: rest else p :: dictInsert rest k v

theorem lookupA_dictInsert {α : Type} (d : List (String × α)) (k k2 : String) (v : α) :
    lookupA (dictInsert d k v) k2 = if k2 = k then some v else lookupA d k2 := by
  induction d with
  | nil =>
    by_cases h : k2 = k
    · simp [dictInsert, lookupA, h]
    · simp [dictInsert, lookupA, h, Ne.symm h]
  | cons p rest ih =>
    by_cases hp : p.1 = k
    · by_cases h2 : k2 = k
      · simp [dictInsert, lookupA, hp, h2]
      · simp [dictInsert, lookupA, hp, h2, Ne.symm h2]
    · by_cases h3 : p.1 = k2
      · have hk : ¬k2 = k := fun hh => hp (by rw [h3, hh])
        simp [dictInsert, lookupA, hp, h3, hk]
      · simp [dictInsert, lookupA, hp, h3, ih]

theorem lookupA_mem {α : Type} (d : List (String × α)) (k : String) (v : α)
    (h : lookupA d k = some v) : (k, v) ∈ d := by
  induction d with
  | nil => simp [lookupA] at h
  | cons p rest ih =>
    by_cases hp : p.1 = k
    · have h2 : p.2 = v := by simpa [lookupA, hp] using h
      have hpv : p = (k, v) := Prod.ext hp h2
      rw [← hpv]
      exact List.mem_cons_self p rest
    · simp [lookupA, hp] at h
      exact List.mem_cons_of_mem p (ih h)

theorem dictInsert_keys {α : Type} (d : List (String × α)) (k : String) (v : α) :
    (dictInsert d k v).map Prod.fst =
      if k ∈ d.map Prod.fst then d.map Prod.fst else d.map Prod.fst ++ [k] := by
  induction d with
  | nil => simp [dictInsert]
  | cons p rest ih =>
    by_cases hp : p.1 = k
    · simp [dictInsert, hp]
    · simp only [dictInsert, if_neg hp, List.map_cons, ih]
      by_cases hm : k ∈ rest.map Prod.fst
      · simp [hm, Ne.symm hp]
      · simp [hm, Ne.symm hp]

theorem dictInsert_keys_nodup {α : Type} (d : List (String × α)) (k : String) (v : α)
    (h : (d.map Prod.fst).Nodup) : ((dictInsert d k v).map Prod.fst).Nodup := by
  rw [dictInsert_keys]
  by_cases hc : k ∈ d.map Prod.fst
  · simp [hc, h]
  · simp only [if_neg hc]
    exact h.append (List.nodup_singleton k) (by simp [List.disjoint_singleton, hc])

theorem dictInsert_forall {α : Type} (P : String × α → Prop) (d : List (String × α))
    (k : String) (v : α) (hd : ∀ p ∈ d, P p) (hv : P (k, v)) :
    ∀ p ∈ dictInsert d k v, P p := by
  induction d with
  | nil => simpa [dictInsert] using hv
  | cons q rest ih =>
    by_cases hq : q.1 = k
    · simp only [dictInsert, if_pos hq]
      intro p hp
      rcases List.mem_cons.mp hp with h1 | h2
      · rw [h1]; exact hv
      · exact hd p (List.mem_cons_of_mem q h2)
    · simp only [dictInsert, if_neg hq]
      intro p hp
      rcases List.mem_cons.mp hp with h1 | h2
      · rw [h1]; exact hd q (List.mem_cons_self q rest)
      · exact ih (fun p2 hp2 => hd p2 (List.mem_cons_of_mem q hp2)) p h2

/-! ### Keyword extractor (`_extract_keywords`, search.py lines 459-468)

The source line is `words = re.findall(r'\\b\\w+\\b', query.lower())`.
The raw string holds DOUBLED backslashes, so the regex is
literal-backslash `b` literal-backslash `w`(one or more) literal-backslash
`b`: it matches text of the shape `\b\www\b`, not word tokens. The
scanner below implements exactly that pattern (greedy `w+`; no further
backtracking can succeed because a shorter run of `w` is followed by `w`,
never by the required backslash). -/

/-- Length of the leading run of the character `w`. -/
def leadingW : List Char → Nat
  | c :: rest => if c = ('w') then leadingW rest + 1 else 0
  | [] => 0

/-- If the broken pattern `\b\w+\b` (with literal backslashes) matches at
the head of the text, the length of the (greedy) match. -/
def matchBWLen : List Char → Option Nat
  | c1 :: c2 :: c3 :: t =>
    if c1 = ('\\') && c2 = ('b') && c3 = ('\\') then
      let k := leadingW t
      if 1 ≤ k then
        match t.drop k with
        | c4 :: c5 :: _ => if c4 = ('\\') && c5 = ('b') then some (5 + k) else none
        | _ => none
      else none
    else none
  | _ => none

/-- `re.findall` for the broken pattern: scan left to right, emit each
non-overlapping match. Each step consumes at least one character, so
`fuel = text.length` suffices. -/
def findallBWFuel : Nat → List Char → List (List Char)
  | 0, _ => []
  | _, [] => []
  | fuel+1, c :: rest =>
    match matchBWLen (c :: rest) with
    | some n => List.take n (c :: rest) :: findallBWFuel fuel (List.drop (n - 1) rest)
    | none => findallBWFuel fuel rest

/-- All matches of the broken pattern in a character list. -/
def findallBW (l : List Char) : List (List Char) := findallBWFuel l.length l

/-- The fixed stop-word set of `_extract_keywords` (Portuguese function
words). -/
def stop_words : List String :=
  [("de"), ("da"), ("do"), ("das"), ("dos"), ("e"), ("ou"), ("o"), ("a"),
   ("os"), ("as"), ("um"), ("uma"), ("uns"), ("umas")]

/-- `_extract_keywords`: findall over the lowered query with the (broken)
pattern, then discard tokens of length ≤ 2 and stop words. -/
def extract_keywords (query : String) : List String :=
  let words := (findallBW (lowerStr query).data).map String.mk
  words.filter (fun word => decide (2 < word.length) && !(stop_words.contains word))

/-! ### Lexical scorer (`_calculate_keyword_similarity`, lines 470-487) -/

/-- `_calculate_keyword_similarity`: per keyword, count case-insensitive
occurrences; if positive add `min(1.0, count * 0.1) * (len(keyword) / 10)`;
finally divide by the number of keywords and clamp to 1 (0 when there are
no keywords). -/
def calculate_keyword_similarity (text : String) (keywords : List String) : ℚ :=
  let text_lower := lowerStr text
  let total_score := keywords.foldl (fun acc keyword =>
    let count := countOcc text_lower (lowerStr keyword)
    if 0 < count then acc + ratMin 1 ((count : ℚ) * (1/10)) * ((keyword.length : ℚ) / 10)
    else acc) 0
  if !keywords.isEmpty then ratMin 1 (total_score / (keywords.length : ℚ))
  else 0

/-! ### Raw-query safety gate (`_is_safe_sql_query`, lines 489-504) -/

/-- The forbidden mutating keywords, in source order. -/
def forbidden_words : List String :=
  [("DROP"), ("DELETE"), ("INSERT"), ("UPDATE"), ("ALTER"), ("CREATE"), ("TRUNCATE")]

/-- `_is_safe_sql_query`: strip and uppercase the query; require it to start
with `SELECT` and to contain none of the forbidden words as a substring. -/
def is_safe_sql_query (query : String) : Bool :=
  let query_clean := upperStr (stripStr query)
  (("SELECT").data.isPrefixOf query_clean.data) &&
    forbidden_words.all (fun word => !(isSubstr word.data query_clean.data))

/-! ### Content-identity key (`_generate_result_key`, lines 566-568) -/

/-- `_generate_result_key`: `f"{content_type.value}_{title}_{hash(content[:100])}"`,
parametrised by the process hash function. -/
def generate_result_key (hashFn : String → Int) (result : SearchResult) : String :=
  result.content_type.value ++ ("_") ++ result.title ++ ("_") ++
    toString (hashFn (String.mk (result.content.data.take 100)))

/-! ### Hybrid fusion (`_hybrid_search` combination step, lines 238-258) -/

/-- The ×1.2 boost (capped at 1) applied to semantic scores. -/
def boostScore (s : ℚ) : ℚ := ratMin 1 (s * (12/10))

/-- The merge rule for an item found by both signals:
`min(1.0, avg(existing, new) * 1.1)`. -/
def combineScores (existing new : ℚ) : ℚ := ratMin 1 ((existing + new) / 2 * (11/10))

/-- One semantic insertion step: store the result under its identity key
with its score boosted. -/
def insSem (hashFn : String → Int) (all : List (String × SearchResult)) (result : SearchResult) :
    List (String × SearchResult) :=
  dictInsert all (generate_result_key hashFn result)
    { result with similarity := boostScore result.similarity }

/-- One keyword insertion step: combine with an existing semantic hit, or
insert fresh at its own score. -/
def insKw (hashFn : String → Int) (all : List (String × SearchResult)) (result : SearchResult) :
    List (String × SearchResult) :=
  let key := generate_result_key hashFn result
  match lookupA all key with
  | some existing =>
    dictInsert all key { existing with similarity := combineScores existing.similarity result.similarity }
  | none => dictInsert all key result

/-- The fusion step of `_hybrid_search`: fold the semantic results, then the
keyword results, into one insertion-ordered map; return its values. -/
def hybrid_fuse (hashFn : String → Int) (semantic_results keyword_results : List SearchResult) :
    List SearchResult :=
  let all0 := semantic_results.foldl (insSem hashFn) []
  let all1 := keyword_results.foldl (insKw hashFn) all0
  all1.map Prod.snd

/-! ### Filter chain (`_apply_filters`, lines 516-542)

Python truthiness is preserved: an empty category/source string skips that
filter (`if filters.category:`), and a result with no timestamp fails a set
date bound (`r.timestamp and ...`). -/

/-- Content-type stage: `[r for r in filtered if r.content_type == filters.content_type]`. -/
def stage_content_type (f : SearchFilter) (l : List SearchResult) : List SearchResult :=
  match f.content_type with
  | some ct => l.filter (fun r => decide (r.content_type = ct))
  | none => l

/-- Category stage (skipped when the category is `None` or empty). -/
def stage_category (f : SearchFilter) (l : List SearchResult) : List SearchResult :=
  match f.category with
  | some c => if c.isEmpty then l else l.filter (fun r => decide (r.category = some c))
  | none => l

/-- Lower date bound: results lacking a timestamp are dropped. -/
def stage_date_from (f : SearchFilter) (l : List SearchResult) : List SearchResult :=
  match f.date_from with
  | some d =>
    l.filter (fun r => match r.timestamp with
      | some t => decide (d ≤ t)
      | none => false)
  | none => l

/-- Upper date bound: results lacking a timestamp are dropped. -/
def stage_date_to (f : SearchFilter) (l : List SearchResult) : List SearchResult :=
  match f.date_to with
  | some d =>
    l.filter (fun r => match r.timestamp with
      | some t => decide (t ≤ d)
      | none => false)
  | none => l

/-- Source stage (skipped when the source is `None` or empty). -/
def stage_source (f : SearchFilter) (l : List SearchResult) : List SearchResult :=
  match f.source with
  | some s => if s.isEmpty then l else l.filter (fun r => decide (r.source = some s))
  | none => l

/-- Minimum-similarity stage: `[r for r in filtered if r.similarity >= filters.min_similarity]`. -/
def stage_min_similarity (f : SearchFilter) (l : List SearchResult) : List SearchResult :=
  l.filter (fun r => decide (f.min_similarity ≤ r.similarity))

/-- `_apply_filters`: content type, category, date-from, date-to, source,
minimum similarity, in source order. -/
def apply_filters (results : List SearchResult) (filters : SearchFilter) : List SearchResult :=
  stage_min_similarity filters
    (stage_source filters
      (stage_date_to filters
        (stage_date_from filters
          (stage_category filters
            (stage_content_type filters results)))))

/-! ### Ranking (`_rank_results`, lines 544-547) -/

/-- `_rank_results`: stable sort by similarity, descending
(Python `sorted(..., key=..., reverse=True)`). -/
def rank_results (results : List SearchResult) : List SearchResult :=
  results.mergeSort (fun a b => decide (b.similarity ≤ a.similarity))

/-- The post-dispatch tail of `search` (lines 121-128): apply the filter
chain, rank, then truncate to `max_results`. -/
def post_process (results : List SearchResult) (filters : SearchFilter) : List SearchResult :=
  pythonTake (rank_results (apply_filters results filters)) filters.max_results

/-! ### Result cache (lines 75-77, 549-564) -/

/-- `self.cache_ttl = 300` (seconds). -/
def cache_ttl : ℚ := 300

/-- The cache dictionary: key to (storage time, results). -/
abbrev CacheState := List (String × (ℚ × List SearchResult))

/-- `_get_cached_result`: return the stored list iff the entry exists and is
strictly younger than the TTL. -/
def get_cached_result (cache : CacheState) (now : ℚ) (cache_key : String) :
    Option (List SearchResult) :=
  match lookupA cache cache_key with
  | some (ts, results) => if now - ts < cache_ttl then some results else none
  | none => none

/-- `_cache_result`: unconditional overwrite with the current time. -/
def cache_result (cache : CacheState) (now : ℚ) (cache_key : String)
    (results : List SearchResult) : CacheState :=
  dictInsert cache cache_key (now, results)


/-! ### Embedding-based similarity search (`embeddings.py`, lines 104-160) -/

/-- A row of the `documents` table as read by `search_similar_documents`. -/
structure EmbDoc where
  id : String
  title : String
  content : String
  file_path : Option String := none
  meta_data : List (String × String) := []
  embedding : Option (List ℚ) := none
deriving DecidableEq, Repr

/-- The result dictionary built by `search_similar_documents` (keys `id`,
`title`, `content`, `file_path`, `metadata`, `similarity` — note: no
`source`, `category` or `created_at` key). -/
structure SimilarDoc where
  id : String
  title : String
  content : String
  file_path : Option String := none
  metadata : List (String × String) := []
  similarity : ℚ
deriving DecidableEq, Repr

/-- External collaborators of `EmbeddingManager.search_similar_documents`:
the embedding provider (fallible I/O), the `documents` snapshot read, and
the numpy cosine computation (floating point, abstracted as a function of
the two vectors). -/
structure EmbEnv where
  create_embedding : String → Except String (List ℚ)
  fetch_documents : Except String (List EmbDoc)
  cosine : List ℚ → List ℚ → ℚ

/-- Stable descending sort by similarity, as
`results.sort(key=lambda x: x['similarity'], reverse=True)`. -/
def sortSimDesc (results : List SimilarDoc) : List SimilarDoc :=
  results.mergeSort (fun a b => decide (b.similarity ≤ a.similarity))

/-- `search_similar_documents`: embed the query, scan all active documents,
keep those with a (non-empty) embedding whose cosine similarity reaches the
threshold, sort descending, truncate to `limit`. Any exception (embedding
failure, snapshot failure) is caught and yields the empty list. -/
def search_similar_documents (env : EmbEnv) (query : String) (limit : Int) (threshold : ℚ) :
    List SimilarDoc :=
  match env.create_embedding query with
  | .error _ => []
  | .ok query_embedding =>
    match env.fetch_documents with
    | .error _ => []
    | .ok documents =>
      let results := documents.filterMap (fun doc =>
        match doc.embedding with
        | some emb =>
          if emb.isEmpty then none
          else
            let similarity := env.cosine query_embedding emb
            if threshold ≤ similarity then
              some { id := doc.id, title := doc.title,
                     content :=
                       if 500 < doc.content.length then
                         String.mk (doc.content.data.take 500) ++ ("...")
                       else doc.content,
                     file_path := doc.file_path, metadata := doc.meta_data,
                     similarity := similarity }
            else none
        | none => none)
      pythonTake (sortSimDesc results) limit

/-! ### Engine environment and the four search modes (`search.py`) -/

/-- A parameter of a parametrised SQL query (the `ILIKE` patterns are
strings, the limit is an integer). -/
inductive SqlParam
  | s (v : String)
  | i (n : Int)
deriving DecidableEq, Repr

/-- External collaborators of `IntelligentSearchEngine`: the embedding
manager and the database (`execute_query`, fallible; `none` parameters
model Python `params=None`). -/
structure Env where
  emb : EmbEnv
  execute_query : String → Option (List SqlParam) → Except String (List Row)

/-- `_semantic_search` (lines 140-169): call `search_similar_documents` with
`limit = max_results * 2` and `threshold = min_similarity`, and wrap each
returned dictionary as a `SearchResult`. The dictionaries carry no
`source`, `category` or `created_at` key, so `.get` yields `None` for all
three. -/
def semantic_search (env : Env) (query : String) (filters : SearchFilter) : List SearchResult :=
  (search_similar_documents env.emb query (filters.max_results * 2) filters.min_similarity).map
    (fun doc =>
      { id := doc.id, title := doc.title, content := doc.content,
        content_type := ContentType.document, similarity := doc.similarity,
        source := none, category := none, timestamp := none,
        metadata := MetaVal.dict doc.metadata })

/-- Python `str(value)` for a database cell (shape only; the claims never
depend on the rendering of non-string values). -/
def pyStr : DBVal → String
  | .str v => v
  | .num x => toString x
  | .time ts => toString ts
  | .dict kv => toString kv

/-- `f"{value}"` over a nullable cell (`None` prints as `None`). -/
def cellStr : Option DBVal → String
  | none => ("None")
  | some v => pyStr v

/-- A nullable cell kept as an optional string field. -/
def cellOptStr : Option DBVal → Option String
  | none => none
  | some v => some (pyStr v)

/-- A nullable cell read as a timestamp. -/
def cellTime : Option DBVal → Option ℚ
  | some (.time ts) => some ts
  | some (.num x) => some x
  | _ => none

/-- A nullable cell read as a metadata dictionary. -/
def cellDict : Option DBVal → List (String × String)
  | some (.dict kv) => kv
  | _ => []

/-- Python `row[k]`: `KeyError` when the column is absent. -/
def rowGet (row : Row) (k : String) : Except String (Option DBVal) :=
  match lookupA row k with
  | some c => .ok c
  | none => .error (("KeyError: ") ++ k)

/-- Python `row.get(k, default)`. -/
def rowGetD (row : Row) (k : String) (d : Option DBVal) : Option DBVal :=
  (lookupA row k).getD d

/-- A Python `for` loop appending to `results` inside a `try` block: on the
first exception the loop stops and the results accumulated so far are
returned. -/
def collectE {α β : Type} (xs : List α) (g : α → Except String β) : List β :=
  match xs with
  | [] => []
  | x :: rest =>
    match g x with
    | .ok y => y :: collectE rest g
    | .error _ => []

/-- The SQL text built by `_search_documents_by_keywords` (lines 260-306);
whitespace normalised. -/
def docs_keywords_sql (keywords : List String) : String :=
  let keywords_condition := String.intercalate (" OR ")
    (keywords.map (fun _ => ("(title ILIKE %s OR content ILIKE %s)")))
  ("SELECT id, title, content, source, category, created_at, metadata FROM documents WHERE ")
    ++ keywords_condition ++ (" ORDER BY created_at DESC LIMIT %s")

/-- The parameter list shared by the three keyword sub-searches: each
keyword twice as an `ILIKE` pattern, then the result limit. -/
def likeParams (keywords : List String) (filters : SearchFilter) : List SqlParam :=
  (keywords.map (fun keyword =>
    [SqlParam.s (("%") ++ keyword ++ ("%")), SqlParam.s (("%") ++ keyword ++ ("%"))])).flatten
    ++ [SqlParam.i filters.max_results]

/-- Wrap one `documents` row (lines 286-301): the similarity is the lexical
score of the `content` column against the keywords. A missing column
raises `KeyError`. -/
def doc_row_to_result (keywords : List String) (row : Row) : Except String SearchResult := do
  let content ← rowGet row ("content")
  let id ← rowGet row ("id")
  let title ← rowGet row ("title")
  let source ← rowGet row ("source")
  let category ← rowGet row ("category")
  let created_at ← rowGet row ("created_at")
  pure { id := cellStr id, title := cellStr title, content := cellStr content,
         content_type := ContentType.document,
         similarity := calculate_keyword_similarity (cellStr content) keywords,
         source := cellOptStr source, category := cellOptStr category,
         timestamp := cellTime created_at,
         metadata := MetaVal.dict (cellDict (rowGetD row ("metadata") none)) }

/-- `_search_documents_by_keywords`: run the query; on a database error the
`except` block returns the (empty) list; otherwise wrap each row, keeping
the prefix built before any row error. -/
def search_documents_by_keywords (env : Env) (keywords : List String) (filters : SearchFilter) :
    List SearchResult :=
  match env.execute_query (docs_keywords_sql keywords) (some (likeParams keywords filters)) with
  | .error _ => []
  | .ok docs => collectE docs (doc_row_to_result keywords)

/-- The SQL text built by `_search_conversations_by_keywords` (lines 308-352). -/
def conv_keywords_sql (keywords : List String) : String :=
  let keywords_condition := String.intercalate (" OR ")
    (keywords.map (fun _ => ("(user_message ILIKE %s OR ai_response ILIKE %s)")))
  ("SELECT id, session_id, user_message, ai_response, timestamp, metadata FROM conversations WHERE ")
    ++ keywords_condition ++ (" ORDER BY timestamp DESC LIMIT %s")

/-- Wrap one `conversations` row (lines 332-347). The content string uses the
source's literal `\\n\\n` (a doubled backslash in the Python f-string, so
the text contains backslash-n, not a newline). -/
def conv_row_to_result (keywords : List String) (row : Row) : Except String SearchResult := do
  let user_message ← rowGet row ("user_message")
  let ai_response ← rowGet row ("ai_response")
  let id ← rowGet row ("id")
  let session_id ← rowGet row ("session_id")
  let timestamp ← rowGet row ("timestamp")
  let content := ("Usuário: ") ++ cellStr user_message ++ ("\\n\\nMamute: ") ++ cellStr ai_response
  pure { id := ("conv_") ++ cellStr id,
         title := ("Conversa ") ++ String.mk ((cellStr session_id).data.take 8),
         content := content,
         content_type := ContentType.conversation,
         similarity := calculate_keyword_similarity content keywords,
         source := some ("chat_history"), category := none,
         timestamp := cellTime timestamp,
         metadata := MetaVal.dict (cellDict (rowGetD row ("metadata") none)) }

/-- `_search_conversations_by_keywords`. -/
def search_conversations_by_keywords (env : Env) (keywords : List String)
    (filters : SearchFilter) : List SearchResult :=
  match env.execute_query (conv_keywords_sql keywords) (some (likeParams keywords filters)) with
  | .error _ => []
  | .ok convs => collectE convs (conv_row_to_result keywords)

/-- The SQL text built by `_search_query_logs_by_keywords` (lines 354-397). -/
def logs_keywords_sql (keywords : List String) : String :=
  let keywords_condition := String.intercalate (" OR ")
    (keywords.map (fun _ => ("(sql_query ILIKE %s OR result_summary ILIKE %s)")))
  ("SELECT id, sql_query, result_summary, execution_time, timestamp, metadata FROM queries WHERE ")
    ++ keywords_condition ++ (" ORDER BY timestamp DESC LIMIT %s")

/-- Python `f"{x:.2f}"` on the execution time (rendering only; no claim
depends on the decimal formatting). -/
def format2f (x : ℚ) : String := toString x

/-- Wrap one `queries` row (lines 378-392); note the same literal `\\n\\n`. -/
def log_row_to_result (keywords : List String) (row : Row) : Except String SearchResult := do
  let sql_query ← rowGet row ("sql_query")
  let id ← rowGet row ("id")
  let execution_time ← rowGet row ("execution_time")
  let timestamp ← rowGet row ("timestamp")
  let result_summary :=
    match lookupA row ("result_summary") with
    | some c => cellStr c
    | none => ("N/A")
  let content := ("Query: ") ++ cellStr sql_query ++ ("\\n\\nResultado: ") ++ result_summary
  pure { id := ("query_") ++ cellStr id,
         title := ("Query SQL (") ++ format2f ((cellTime execution_time).getD 0) ++ ("ms)"),
         content := content,
         content_type := ContentType.log_entry,
         similarity := calculate_keyword_similarity content keywords,
         source := some ("query_logs"), category := none,
         timestamp := cellTime timestamp,
         metadata := MetaVal.dict (cellDict (rowGetD row ("metadata") none)) }

/-- `_search_query_logs_by_keywords`. -/
def search_query_logs_by_keywords (env : Env) (keywords : List String)
    (filters : SearchFilter) : List SearchResult :=
  match env.execute_query (logs_keywords_sql keywords) (some (likeParams keywords filters)) with
  | .error _ => []
  | .ok logs => collectE logs (log_row_to_result keywords)

/-- `_keyword_search` (lines 171-194): extract keywords, then concatenate the
document, conversation and query-log sub-searches. -/
def keyword_search (env : Env) (query : String) (filters : SearchFilter) : List SearchResult :=
  let keywords := extract_keywords query
  search_documents_by_keywords env keywords filters
    ++ search_conversations_by_keywords env keywords filters
    ++ search_query_logs_by_keywords env keywords filters

/-- `_row_to_searchable_text` (lines 506-514): `" | ".join(f"{k}: {v}")` over
the non-null cells. -/
def row_to_searchable_text (row : Row) : String :=
  String.intercalate (" | ")
    (row.filterMap (fun p =>
      match p.2 with
      | some v => some (p.1 ++ (": ") ++ pyStr v)
      | none => none))

/-- The `SearchResult` built for row number `i` of a raw-query result
(lines 210-224). -/
def sql_row_result (now : ℚ) (query : String) (p : Nat × Row) : SearchResult :=
  { id := ("sql_result_") ++ toString p.1,
    title := ("Resultado SQL ") ++ toString (p.1 + 1),
    content := row_to_searchable_text p.2,
    content_type := ContentType.query_result,
    similarity := 1,
    source := some ("sql_query"), category := none,
    timestamp := some now,
    metadata := MetaVal.sqlmeta query p.2 }

/-- `_sql_search` (lines 196-229): reject unsafe queries (returning the empty
list built before the check — the caller sees no error); otherwise execute
the raw query and surface each row verbatim at similarity 1.0. A database
error is caught and yields the list built so far (empty). -/
def sql_search (env : Env) (now : ℚ) (query : String) (filters : SearchFilter) :
    List SearchResult :=
  if !(is_safe_sql_query query) then []
  else
    match env.execute_query query none with
    | .error _ => []
    | .ok sql_results => sql_results.enum.map (sql_row_result now query)

/-- `_hybrid_search` (lines 231-258): fuse the semantic and keyword candidate
lists. -/
def hybrid_search (env : Env) (hashFn : String → Int) (query : String)
    (filters : SearchFilter) : List SearchResult :=
  hybrid_fuse hashFn (semantic_search env query filters) (keyword_search env query filters)

/-! ### Query gateway (`search`, lines 83-138) -/

/-- The dispatch argument: one of the four `SearchType` enum members, or any
other value (whose `value` rendering is an arbitrary string) — the latter
reaches the `raise ValueError` branch. -/
abbrev SearchTypeArg := SearchType ⊕ String

/-- `search_type.value` for the dispatch argument. -/
def modeValue : SearchTypeArg → String
  | .inl t => t.value
  | .inr s => s

/-- `str(asdict(filters))`, modelled by the derived `Repr` rendering (any
injective-enough encoding; only its hash is ever used). -/
def filterRepr (filters : SearchFilter) : String := toString (repr filters)

/-- `_generate_cache_key` (lines 549-552). -/
def generate_cache_key (hashFn : String → Int) (query : String) (search_type : SearchTypeArg)
    (filters : SearchFilter) : String :=
  query ++ ("_") ++ modeValue search_type ++ ("_") ++ toString (hashFn (filterRepr filters))

/-- The mode dispatch of `search` (lines 110-119): the four enum members
run their search; any other value raises `ValueError`. -/
def dispatch_mode (env : Env) (hashFn : String → Int) (now : ℚ) (query : String)
    (filters : SearchFilter) : SearchTypeArg → Except String (List SearchResult)
  | .inl SearchType.semantic => .ok (semantic_search env query filters)
  | .inl SearchType.keyword => .ok (keyword_search env query filters)
  | .inl SearchType.sql => .ok (sql_search env now query filters)
  | .inl SearchType.hybrid => .ok (hybrid_search env hashFn query filters)
  | .inr other => .error (("Tipo de busca não suportado: ") ++ other)

/-- The recompute path of the `try` block of `search` (lines 109-134): mode
dispatch, filter chain, ranking, truncation, cache write. -/
def search_compute (env : Env) (hashFn : String → Int) (now : ℚ) (cache : CacheState)
    (query : String) (search_type : SearchTypeArg) (filters : SearchFilter)
    (cache_key : String) : Except String (List SearchResult × CacheState) :=
  match dispatch_mode env hashFn now query filters search_type with
  | .error e => .error e
  | .ok results =>
    let results := post_process results filters
    .ok (results, cache_result cache now cache_key results)

/-- The body of the `try` block of `search` (lines 102-134): cache probe
(`if cached_result:` — Python truthiness, so an empty cached list counts as
a miss and is recomputed), then the recompute path. -/
def search_step (env : Env) (hashFn : String → Int) (now : ℚ) (cache : CacheState)
    (query : String) (search_type : SearchTypeArg) (filters : SearchFilter) :
    Except String (List SearchResult × CacheState) :=
  let cache_key := generate_cache_key hashFn query search_type filters
  match get_cached_result cache now cache_key with
  | some cached_result =>
    if cached_result.isEmpty then
      search_compute env hashFn now cache query search_type filters cache_key
    else .ok (cached_result, cache)
  | none => search_compute env hashFn now cache query search_type filters cache_key

/-- `search` (lines 83-138): empty queries short-circuit; a missing filter
object is replaced by the defaults; every exception inside the body is
caught and turns into the empty result list (with the cache unchanged). -/
def search (env : Env) (hashFn : String → Int) (now : ℚ) (cache : CacheState)
    (query : String) (search_type : SearchTypeArg) (filters0 : Option SearchFilter) :
    List SearchResult × CacheState :=
  if (stripStr query).isEmpty then ([], cache)
  else
    let filters := filters0.getD {}
    match search_step env hashFn now cache query search_type filters with
    | .ok p => p
    | .error _ => ([], cache)

/-! ### Web gateway (`web_app.py`, lines 44-51 and 878-917) -/

/-- `SearchRequest` (pydantic model), defaults included. -/
structure SearchRequest where
  query : String
  search_type : String := ("hybrid")
  content_type : Option String := none
  category : Option String := none
  source : Option String := none
  min_similarity : ℚ := 1/2
  max_results : Int := 20
deriving DecidableEq, Repr

/-- `ContentType(s)`: enum construction from the value string;
an unknown string raises `ValueError`. -/
def parse_content_type (s : String) : Except String ContentType :=
  if s = ("document") then pure ContentType.document
  else if s = ("conversation") then pure ContentType.conversation
  else if s = ("query_result") then pure ContentType.query_result
  else if s = ("table_data") then pure ContentType.table_data
  else if s = ("log_entry") then pure ContentType.log_entry
  else Except.error (s ++ (" is not a valid ContentType"))

/-- `SearchType(s)`: enum construction from the value string. -/
def parse_search_type (s : String) : Except String SearchType :=
  if s = ("semantic") then pure SearchType.semantic
  else if s = ("keyword") then pure SearchType.keyword
  else if s = ("sql") then pure SearchType.sql
  else if s = ("hybrid") then pure SearchType.hybrid
  else Except.error (s ++ (" is not a valid SearchType"))

/-- The filter-construction prefix of `intelligent_search` (web_app.py lines
888-898): convert the mode string, convert the content type when present,
and build the `SearchFilter` directly from the request fields (no date
bounds, no clamping, no range check). A `ValueError` here is surfaced as an
HTTP 400. -/
def intelligent_search_filters (req : SearchRequest) :
    Except String (SearchType × SearchFilter) :=
  match parse_search_type req.search_type with
  | .error e => .error e
  | .ok search_type =>
    match req.content_type with
    | some s =>
      match parse_content_type s with
      | .error e => .error e
      | .ok ct =>
        .ok (search_type,
          { content_type := some ct, category := req.category, source := req.source,
            min_similarity := req.min_similarity, max_results := req.max_results })
    | none =>
      .ok (search_type,
        { content_type := none, category := req.category, source := req.source,
          min_similarity := req.min_similarity, max_results := req.max_results })

/-! ### Bridging lemmas -/

theorem ratMin_eq_min (a b : ℚ) : ratMin a b = min a b := (min_def a b).symm

/-! ### Claim C3 (code bug): the keyword extractor never tokenises ordinary
words -/

/-- Claim C3: the extractor is claimed to return the lowercase word tokens of
the query, so an ordinary word longer than two characters that is not a
stop word should come back non-empty. On the code it returns the empty
list, because the doubled backslashes of `r'\\b\\w+\\b'` make the regex
match only literal `\b...\b` text — as the control evaluation on the
literal text `\b\www\b` (which IS matched and returned whole) shows. -/
theorem extract_keywords_bug_eval :
    extract_keywords ("postgresql") = [] ∧
    2 < ("postgresql").length ∧
    stop_words.contains ("postgresql") = false ∧
    extract_keywords ("\\b\\www\\b") = [("\\b\\www\\b")] := by
  refine ⟨?_, ?_, ?_, ?_⟩ <;> decide

/-! ### Claim C3 continued: extraction is empty on every backslash-free query -/

theorem matchBWLen_none_of_head (c : Char) (rest : List Char) (h : c ≠ ('\\')) :
    matchBWLen (c :: rest) = none := by
  cases rest with
  | nil => rfl
  | cons c2 rest2 =>
    cases rest2 with
    | nil => rfl
    | cons c3 t => simp [matchBWLen, h]

theorem findallBWFuel_no_backslash (fuel : Nat) (l : List Char)
    (h : ∀ c ∈ l, c ≠ ('\\')) : findallBWFuel fuel l = [] := by
  induction fuel generalizing l with
  | zero => cases l <;> rfl
  | succ n ih =>
    cases l with
    | nil => rfl
    | cons c rest =>
      have hm := matchBWLen_none_of_head c rest (h c (List.mem_cons_self c rest))
      unfold findallBWFuel
      rw [hm]
      exact ih rest (fun c2 h2 => h c2 (List.mem_cons_of_mem c h2))

/-- Claim C3, general form: whenever the lowered query contains no literal
backslash — every ordinary query — the extractor returns no tokens at all. -/
theorem extract_keywords_empty_of_no_backslash (query : String)
    (h : ∀ c ∈ (lowerStr query).data, c ≠ ('\\')) :
    extract_keywords query = [] := by
  unfold extract_keywords findallBW
  rw [findallBWFuel_no_backslash _ _ h]
  rfl

/-- Witness for `extract_keywords_empty_of_no_backslash` at `postgresql`. -/
theorem extract_keywords_empty_witness : extract_keywords ("postgresql") = [] :=
  extract_keywords_empty_of_no_backslash ("postgresql") (by decide)

/-! ### Claim C7: cache TTL and freshest-write-wins -/

/-- Claim C7: a `get` after a `put` of `results` at time `now` returns the
stored list exactly when queried strictly less than the 300-second TTL
later — regardless of anything previously stored under the key (the `put`
overwrites unconditionally) — and a key never written is absent. -/
theorem cache_get_put_ttl (cache : CacheState) (now now2 : ℚ) (cache_key : String)
    (results : List SearchResult) :
    get_cached_result (cache_result cache now cache_key results) now2 cache_key =
      (if now2 - now < cache_ttl then some results else none) ∧
    get_cached_result [] now2 cache_key = none := by
  constructor
  · simp [get_cached_result, cache_result, lookupA_dictInsert]
  · simp [get_cached_result, lookupA]

/-! ### Claim C6: the lexical scorer computes the documented formula -/

/-- Modelled from the spec: per-token contribution
`min(1.0, occurrences * 0.1) * (len(token)/10)`, summed, divided by the
token count and clamped to 1.0; 0 for an empty token set. Stated with
`min` so it can be compared against the code-side `calculate_keyword_similarity`. -/
def keyword_similarity_spec (text : String) (keywords : List String) : ℚ :=
  if keywords = [] then 0
  else
    min 1
      (((keywords.map (fun keyword =>
          min 1 ((countOcc (lowerStr text) (lowerStr keyword) : ℚ) * (1/10))
            * ((keyword.length : ℚ) / 10))).sum) / (keywords.length : ℚ))

theorem foldl_add_if {α : Type} (l : List α) (c : α → Prop) [DecidablePred c] (g : α → ℚ) (init : ℚ) :
    l.foldl (fun acc x => if c x then acc + g x else acc) init
      = init + (l.map (fun x => if c x then g x else 0)).sum := by
  induction l generalizing init with
  | nil => simp
  | cons x rest ih =>
    by_cases h : c x <;> simp [h, ih, add_assoc]

theorem tokenTerm_if_eq (text : String) (keyword : String) :
    (if 0 < countOcc (lowerStr text) (lowerStr keyword) then
        ratMin 1 ((countOcc (lowerStr text) (lowerStr keyword) : ℚ) * (1/10))
          * ((keyword.length : ℚ) / 10)
      else 0)
    = min 1 ((countOcc (lowerStr text) (lowerStr keyword) : ℚ) * (1/10))
        * ((keyword.length : ℚ) / 10) := by
  by_cases h : 0 < countOcc (lowerStr text) (lowerStr keyword)
  · simp [h, ratMin_eq_min]
  · have h0 : countOcc (lowerStr text) (lowerStr keyword) = 0 := Nat.eq_zero_of_not_pos h
    simp [h, h0]

theorem tokenTerm_nonneg (text : String) (keyword : String) :
    0 ≤ min 1 ((countOcc (lowerStr text) (lowerStr keyword) : ℚ) * (1/10))
        * ((keyword.length : ℚ) / 10) := by
  apply mul_nonneg
  · apply le_min
    · norm_num
    · positivity
  · positivity

/-- Claim C6: the lexical score equals the documented formula (sum of
`min(1, occurrences * 0.1) * (len/10)` over tokens, divided by the token
count, clamped to 1), it always lies in [0, 1], and an empty token set
scores 0. -/
theorem keyword_similarity_matches_spec (text : String) (keywords : List String) :
    calculate_keyword_similarity text keywords = keyword_similarity_spec text keywords ∧
    0 ≤ calculate_keyword_similarity text keywords ∧
    calculate_keyword_similarity text keywords ≤ 1 ∧
    calculate_keyword_similarity text [] = 0 := by
  have hmain : ∀ kws : List String,
      calculate_keyword_similarity text kws = keyword_similarity_spec text kws := by
    intro kws
    unfold calculate_keyword_similarity keyword_similarity_spec
    dsimp only
    rw [foldl_add_if kws
      (fun keyword => 0 < countOcc (lowerStr text) (lowerStr keyword))
      (fun keyword => ratMin 1 ((countOcc (lowerStr text) (lowerStr keyword) : ℚ) * (1/10))
        * ((keyword.length : ℚ) / 10))]
    cases kws with
    | nil => simp
    | cons k rest =>
      simp only [List.isEmpty_cons, Bool.not_false, if_true, zero_add, ratMin_eq_min,
        reduceCtorEq, if_neg]
      congr 2
      refine congrArg List.sum (List.map_congr_left ?_)
      intro a _
      simpa [ratMin_eq_min] using tokenTerm_if_eq text a
  refine ⟨hmain keywords, ?_, ?_, by rw [hmain]; simp [keyword_similarity_spec]⟩
  · rw [hmain]
    unfold keyword_similarity_spec
    cases keywords with
    | nil => simp
    | cons k rest =>
      simp only [reduceCtorEq, if_neg]
      apply le_min
      · norm_num
      · apply div_nonneg
        · apply List.sum_nonneg
          intro x hx
          simp only [List.mem_map] at hx
          obtain ⟨a, _, ha⟩ := hx
          rw [← ha]
          exact tokenTerm_nonneg text a
        · positivity
  · rw [hmain]
    unfold keyword_similarity_spec
    cases keywords with
    | nil => simp
    | cons k rest =>
      simp only [reduceCtorEq, if_neg]
      exact min_le_left _ _

/-! ### Claim C2: raw-query ("sql") mode safety gate -/

/-- A concrete environment: failing embedding provider, empty database. -/
def env0 : Env :=
  { emb := { create_embedding := fun _ => Except.error ("unavailable"),
             fetch_documents := Except.ok [], cosine := fun _ _ => 0 },
    execute_query := fun _ _ => Except.ok [] }

/-- Claim C2 counterexample: the mutating query `DELETE FROM items` is
rejected, but the caller-visible outcome is the empty result list —
byte-identical to the outcome of the accepted read-only query
`SELECT title FROM items` on a database with no rows. No security error
reaches the caller, contradicting the claimed visible surfacing. -/
theorem sql_rejection_silent_cex :
    sql_search env0 0 ("DELETE FROM items") {} = [] ∧
    sql_search env0 0 ("SELECT title FROM items") {} = [] ∧
    is_safe_sql_query ("DELETE FROM items") = false ∧
    is_safe_sql_query ("SELECT title FROM items") = true := by
  refine ⟨?_, ?_, ?_, ?_⟩ <;> decide

/-- Claim C2 (amended): a query that does not begin with `SELECT` or
contains a mutating keyword anywhere (case-insensitive) is rejected before
execution — the result is the empty list for every environment, so the
database is never consulted — but no caller-visible security error is
raised; an accepted `SELECT` query is executed and its rows are surfaced
verbatim at similarity 1.0. -/
theorem sql_search_guard (query : String) :
    (is_safe_sql_query query = false →
      ∀ (env : Env) (now : ℚ) (filters : SearchFilter),
        sql_search env now query filters = []) ∧
    (is_safe_sql_query query = true →
      ∀ (env : Env) (now : ℚ) (filters : SearchFilter) (rows : List Row),
        env.execute_query query none = Except.ok rows →
        sql_search env now query filters = rows.enum.map (sql_row_result now query) ∧
        ∀ r ∈ sql_search env now query filters, r.similarity = 1) := by
  constructor
  · intro h env now filters
    simp [sql_search, h]
  · intro h env now filters rows hex
    constructor
    · simp [sql_search, h, hex]
    · intro r hr
      simp only [sql_search, h, Bool.not_true, Bool.false_eq_true, if_false, hex,
        List.mem_map] at hr
      obtain ⟨p, _, hp⟩ := hr
      rw [← hp]
      rfl

/-- Witness for `sql_search_guard` at concrete inputs. -/
theorem sql_search_guard_witness :
    sql_search env0 0 ("DELETE FROM items") {} = [] ∧
    sql_search env0 0 ("SELECT title FROM items") {} =
      ([] : List Row).enum.map (sql_row_result 0 ("SELECT title FROM items")) :=
  ⟨(sql_search_guard ("DELETE FROM items")).1 (by decide) env0 0 {},
   ((sql_search_guard ("SELECT title FROM items")).2 (by decide) env0 0 {} [] rfl).1⟩

/-! ### Claim C8: gateway filter validation -/

/-- A request with out-of-range similarity and a non-positive result count. -/
def reqBad : SearchRequest := { query := ("x"), min_similarity := 5/2, max_results := 0 }

/-- The filter the gateway builds from `reqBad`. -/
def filtBad : SearchFilter := { min_similarity := 5/2, max_results := 0 }

/-- Claim C8 counterexample: the gateway accepts `min_similarity = 2.5` and
`max_results = 0` verbatim — the constructed filter violates both halves of
the claimed invariant, with no clamping and no rejection. -/
theorem gateway_filter_unvalidated_cex :
    intelligent_search_filters reqBad = Except.ok (SearchType.hybrid, filtBad) ∧
    ¬(filtBad.min_similarity ≤ 1) ∧
    ¬(0 < filtBad.max_results) := by
  refine ⟨rfl, by norm_num [filtBad], by decide⟩

/-- Claim C8 (amended): the gateway rejects unknown search-type and
content-type strings as validation errors, but passes the caller-supplied
`min_similarity` and `max_results` through unchanged — no clamping, no
range check — so the invariant holds only when the supplied values are in
range, as the defaults (`0.5`, `20`) are. -/
theorem gateway_filter_passthrough :
    (∀ (req : SearchRequest) (st : SearchType) (f : SearchFilter),
      intelligent_search_filters req = Except.ok (st, f) →
      f.min_similarity = req.min_similarity ∧ f.max_results = req.max_results ∧
      f.category = req.category ∧ f.source = req.source ∧
      f.date_from = none ∧ f.date_to = none) ∧
    (∀ (req : SearchRequest) (e : String),
      parse_search_type req.search_type = Except.error e →
      intelligent_search_filters req = Except.error e) ∧
    (({} : SearchFilter).min_similarity = 1/2 ∧ 0 ≤ ({} : SearchFilter).min_similarity ∧
      ({} : SearchFilter).min_similarity ≤ 1 ∧ 0 < ({} : SearchFilter).max_results) := by
  refine ⟨?_, ?_, by norm_num⟩
  · intro req st f h
    unfold intelligent_search_filters at h
    cases hst : parse_search_type req.search_type with
    | error e => rw [hst] at h; simp at h
    | ok t =>
      rw [hst] at h
      dsimp only at h
      cases hct : req.content_type with
      | none =>
        rw [hct] at h
        dsimp only at h
        simp only [Except.ok.injEq, Prod.mk.injEq] at h
        rw [← h.2]
        simp
      | some s =>
        rw [hct] at h
        dsimp only at h
        cases hpc : parse_content_type s with
        | error e => rw [hpc] at h; simp at h
        | ok ct =>
          rw [hpc] at h
          dsimp only at h
          simp only [Except.ok.injEq, Prod.mk.injEq] at h
          rw [← h.2]
          simp
  · intro req e he
    unfold intelligent_search_filters
    rw [he]

/-- Witness for `gateway_filter_passthrough` at a concrete in-range request. -/
theorem gateway_filter_passthrough_witness :
    ({ min_similarity := 1/2, max_results := 20 } : SearchFilter).min_similarity
        = ({ query := ("q") } : SearchRequest).min_similarity ∧
    ({ min_similarity := 1/2, max_results := 20 } : SearchFilter).max_results
        = ({ query := ("q") } : SearchRequest).max_results :=
  ⟨(gateway_filter_passthrough.1 { query := ("q") } SearchType.hybrid
      { min_similarity := 1/2, max_results := 20 } rfl).1,
   (gateway_filter_passthrough.1 { query := ("q") } SearchType.hybrid
      { min_similarity := 1/2, max_results := 20 } rfl).2.1⟩

/-! ### Claim C4: embedding-provider failure -/

/-- An embedding environment whose provider times out, over a non-empty
document corpus. -/
def embFail : EmbEnv :=
  { create_embedding := fun _ => Except.error ("timeout"),
    fetch_documents := Except.ok
      [{ id := ("1"), title := ("t"), content := ("c"), embedding := some [1] }],
    cosine := fun _ _ => 1 }

/-- A healthy embedding environment over an empty corpus (a genuine
"no matches" situation). -/
def embOkEmpty : EmbEnv :=
  { create_embedding := fun _ => Except.ok [1],
    fetch_documents := Except.ok [],
    cosine := fun _ _ => 1 }

/-- Claim C4 counterexample: when the provider fails, the vector searcher
returns the plain empty list — byte-identical to its output for a healthy
provider over a corpus with no matches. There is no "unavailable" signal
distinguishable from an empty result list (the return type carries none). -/
theorem embedding_failure_signal_cex :
    search_similar_documents embFail ("q") 10 (1/2) = [] ∧
    search_similar_documents embOkEmpty ("q") 10 (1/2) = [] := by
  constructor
  · rfl
  · simp [search_similar_documents, embOkEmpty, sortSimDesc, pythonTake, List.mergeSort_nil]

/-- Claim C4 (amended): when the embedding provider fails, the vector
searcher returns the empty list (not a distinguishable signal), semantic
mode returns no results, and hybrid mode degrades to fusing the empty
semantic list with the keyword candidates — the call does not fail, but no
degradation flag is surfaced (the result type carries only results). -/
theorem embedding_failure_degrades (env : Env) (hashFn : String → Int) (query : String)
    (filters : SearchFilter) (e : String)
    (h : env.emb.create_embedding query = Except.error e) :
    semantic_search env query filters = [] ∧
    hybrid_search env hashFn query filters =
      hybrid_fuse hashFn [] (keyword_search env query filters) := by
  have hs : semantic_search env query filters = [] := by
    unfold semantic_search search_similar_documents
    rw [h]
    rfl
  exact ⟨hs, by unfold hybrid_search; rw [hs]⟩

/-- A full engine environment with the failing provider. -/
def envFail : Env :=
  { emb := embFail, execute_query := fun _ _ => Except.error ("db down") }

/-- Witness for `embedding_failure_degrades` at a concrete environment. -/
theorem embedding_failure_degrades_witness :
    semantic_search envFail ("q") {} = [] ∧
    hybrid_search envFail (fun _ => 0) ("q") {} =
      hybrid_fuse (fun _ => 0) [] (keyword_search envFail ("q") {}) :=
  embedding_failure_degrades envFail (fun _ => 0) ("q") {} ("timeout") rfl

/-! ### Claim C10: the gateway never propagates an exception -/

/-- Claim C10: every `search` call returns a value — either the successful
result of the `try` body, or the empty list with the cache unchanged (the
`except` path, also taken by the empty-query short-circuit). In particular
an unsupported search mode (the `raise ValueError` branch) yields the empty
list unless the cache already held the key. -/
theorem search_never_raises (env : Env) (hashFn : String → Int) (now : ℚ)
    (cache : CacheState) (query : String) (search_type : SearchTypeArg)
    (filters0 : Option SearchFilter) :
    ((∃ v, search_step env hashFn now cache query search_type (filters0.getD {}) = Except.ok v ∧
        search env hashFn now cache query search_type filters0 = v) ∨
      search env hashFn now cache query search_type filters0 = ([], cache)) ∧
    (∀ other : String,
      search env hashFn now cache query (Sum.inr other) filters0 = ([], cache) ∨
      ∃ cached, get_cached_result cache now
          (generate_cache_key hashFn query (Sum.inr other) (filters0.getD {})) = some cached ∧
        search env hashFn now cache query (Sum.inr other) filters0 = (cached, cache)) := by
  constructor
  · by_cases hq : (stripStr query).isEmpty = true
    · right
      unfold search
      rw [if_pos hq]
    · cases hst : search_step env hashFn now cache query search_type (filters0.getD {}) with
      | ok v =>
        left
        refine ⟨v, rfl, ?_⟩
        unfold search
        rw [if_neg hq]
        dsimp only
        rw [hst]
      | error e =>
        right
        unfold search
        rw [if_neg hq]
        dsimp only
        rw [hst]
  · intro other
    by_cases hq : (stripStr query).isEmpty = true
    · left
      unfold search
      rw [if_pos hq]
    · cases hcc : get_cached_result cache now
          (generate_cache_key hashFn query (Sum.inr other) (filters0.getD {})) with
      | some cached =>
        by_cases he : cached.isEmpty = true
        · left
          unfold search search_step
          rw [if_neg hq]
          dsimp only
          rw [hcc]
          dsimp only
          rw [if_pos he]
          dsimp only [search_compute, dispatch_mode]
        · right
          refine ⟨cached, rfl, ?_⟩
          unfold search search_step
          rw [if_neg hq]
          dsimp only
          rw [hcc]
          dsimp only
          rw [if_neg he]
      | none =>
        left
        unfold search search_step
        rw [if_neg hq]
        dsimp only
        rw [hcc]
        dsimp only [search_compute, dispatch_mode]

/-! ### Claim C5: the filter chain and pagination -/

/-- Spec-side predicate for the content-type filter. -/
def content_type_ok (f : SearchFilter) (r : SearchResult) : Bool :=
  match f.content_type with
  | some ct => decide (r.content_type = ct)
  | none => true

/-- Spec-side predicate for the category filter (Python truthiness: an empty
string disables the filter). -/
def category_ok (f : SearchFilter) (r : SearchResult) : Bool :=
  match f.category with
  | some c => if c.isEmpty then true else decide (r.category = some c)
  | none => true

/-- Spec-side predicate for the lower date bound: a result without a
timestamp fails a set bound. -/
def date_from_ok (f : SearchFilter) (r : SearchResult) : Bool :=
  match f.date_from with
  | some d =>
    match r.timestamp with
    | some t => decide (d ≤ t)
    | none => false
  | none => true

/-- Spec-side predicate for the upper date bound. -/
def date_to_ok (f : SearchFilter) (r : SearchResult) : Bool :=
  match f.date_to with
  | some d =>
    match r.timestamp with
    | some t => decide (t ≤ d)
    | none => false
  | none => true

/-- Spec-side predicate for the source filter (truthiness as for category). -/
def source_ok (f : SearchFilter) (r : SearchResult) : Bool :=
  match f.source with
  | some s => if s.isEmpty then true else decide (r.source = some s)
  | none => true

/-- Spec-side predicate for the minimum-similarity cutoff. -/
def min_similarity_ok (f : SearchFilter) (r : SearchResult) : Bool :=
  decide (f.min_similarity ≤ r.similarity)

/-- Conjunction of the five spec-side filter predicates. -/
def passes_filters (f : SearchFilter) (r : SearchResult) : Bool :=
  content_type_ok f r && category_ok f r && date_from_ok f r &&
    date_to_ok f r && source_ok f r && min_similarity_ok f r

theorem stage_content_type_sublist (f : SearchFilter) (l : List SearchResult) :
    (stage_content_type f l).Sublist l := by
  cases hct : f.content_type with
  | none => simp [stage_content_type, hct]
  | some ct => simp [stage_content_type, hct, List.filter_sublist]

theorem stage_content_type_mem (f : SearchFilter) (l : List SearchResult) (r : SearchResult) :
    r ∈ stage_content_type f l ↔ r ∈ l ∧ content_type_ok f r = true := by
  cases hct : f.content_type with
  | none => simp [stage_content_type, hct, content_type_ok]
  | some ct => simp [stage_content_type, hct, content_type_ok, List.mem_filter]

theorem stage_category_sublist (f : SearchFilter) (l : List SearchResult) :
    (stage_category f l).Sublist l := by
  cases hc : f.category with
  | none => simp [stage_category, hc]
  | some c =>
    by_cases he : c.isEmpty <;> simp [stage_category, hc, he, List.filter_sublist]

theorem stage_category_mem (f : SearchFilter) (l : List SearchResult) (r : SearchResult) :
    r ∈ stage_category f l ↔ r ∈ l ∧ category_ok f r = true := by
  cases hc : f.category with
  | none => simp [stage_category, hc, category_ok]
  | some c =>
    by_cases he : c.isEmpty <;> simp [stage_category, hc, he, category_ok, List.mem_filter]

theorem stage_date_from_sublist (f : SearchFilter) (l : List SearchResult) :
    (stage_date_from f l).Sublist l := by
  cases hd : f.date_from with
  | none => simp [stage_date_from, hd]
  | some d => simp [stage_date_from, hd, List.filter_sublist]

theorem stage_date_from_mem (f : SearchFilter) (l : List SearchResult) (r : SearchResult) :
    r ∈ stage_date_from f l ↔ r ∈ l ∧ date_from_ok f r = true := by
  cases hd : f.date_from with
  | none => simp [stage_date_from, hd, date_from_ok]
  | some d => simp [stage_date_from, hd, date_from_ok, List.mem_filter]

theorem stage_date_to_sublist (f : SearchFilter) (l : List SearchResult) :
    (stage_date_to f l).Sublist l := by
  cases hd : f.date_to with
  | none => simp [stage_date_to, hd]
  | some d => simp [stage_date_to, hd, List.filter_sublist]

theorem stage_date_to_mem (f : SearchFilter) (l : List SearchResult) (r : SearchResult) :
    r ∈ stage_date_to f l ↔ r ∈ l ∧ date_to_ok f r = true := by
  cases hd : f.date_to with
  | none => simp [stage_date_to, hd, date_to_ok]
  | some d => simp [stage_date_to, hd, date_to_ok, List.mem_filter]

theorem stage_source_sublist (f : SearchFilter) (l : List SearchResult) :
    (stage_source f l).Sublist l := by
  cases hs : f.source with
  | none => simp [stage_source, hs]
  | some s =>
    by_cases he : s.isEmpty <;> simp [stage_source, hs, he, List.filter_sublist]

theorem stage_source_mem (f : SearchFilter) (l : List SearchResult) (r : SearchResult) :
    r ∈ stage_source f l ↔ r ∈ l ∧ source_ok f r = true := by
  cases hs : f.source with
  | none => simp [stage_source, hs, source_ok]
  | some s =>
    by_cases he : s.isEmpty <;> simp [stage_source, hs, he, source_ok, List.mem_filter]

theorem stage_min_similarity_sublist (f : SearchFilter) (l : List SearchResult) :
    (stage_min_similarity f l).Sublist l := List.filter_sublist l

theorem stage_min_similarity_mem (f : SearchFilter) (l : List SearchResult) (r : SearchResult) :
    r ∈ stage_min_similarity f l ↔ r ∈ l ∧ min_similarity_ok f r = true := by
  simp [stage_min_similarity, min_similarity_ok, List.mem_filter]

theorem apply_filters_sublist (results : List SearchResult) (f : SearchFilter) :
    (apply_filters results f).Sublist results := by
  unfold apply_filters
  exact ((((((stage_min_similarity_sublist f _).trans
    (stage_source_sublist f _)).trans
    (stage_date_to_sublist f _)).trans
    (stage_date_from_sublist f _)).trans
    (stage_category_sublist f _)).trans
    (stage_content_type_sublist f _))

theorem apply_filters_mem (results : List SearchResult) (f : SearchFilter) (r : SearchResult) :
    r ∈ apply_filters results f ↔ r ∈ results ∧ passes_filters f r = true := by
  unfold apply_filters passes_filters
  rw [stage_min_similarity_mem, stage_source_mem, stage_date_to_mem, stage_date_from_mem,
    stage_category_mem, stage_content_type_mem]
  simp only [Bool.and_eq_true]
  tauto

theorem pythonTake_sublist {α : Type} (l : List α) (m : Int) :
    (pythonTake l m).Sublist l := by
  unfold pythonTake
  by_cases h : 0 ≤ m <;> simp [h, List.take_sublist]

theorem pythonTake_length_le {α : Type} (l : List α) (m : Int) (h : 0 < m) :
    ((pythonTake l m).length : Int) ≤ m := by
  unfold pythonTake
  rw [if_pos (le_of_lt h)]
  have h2 := List.length_take_le m.toNat l
  omega

/-- Claim C5: the filter chain only drops results (it never re-orders the
survivors), membership in its output is exactly the conjunction of the
content-type, category, date-range (a result lacking a timestamp fails any
set date bound), source, and minimum-score predicates, and since truncation
to `max_results` happens only after the full chain (and ranking), the final
list never exceeds `max_results` entries for any positive bound. -/
theorem filter_pagination_spec (results : List SearchResult) (filters : SearchFilter) :
    (apply_filters results filters).Sublist results ∧
    (∀ r, r ∈ apply_filters results filters ↔
      r ∈ results ∧ passes_filters filters r = true) ∧
    (∀ r ∈ apply_filters results filters,
      (∀ d, filters.date_from = some d → r.timestamp ≠ none) ∧
      (∀ d, filters.date_to = some d → r.timestamp ≠ none) ∧
      filters.min_similarity ≤ r.similarity) ∧
    (0 < filters.max_results →
      ((post_process results filters).length : Int) ≤ filters.max_results) := by
  refine ⟨apply_filters_sublist results filters, apply_filters_mem results filters, ?_, ?_⟩
  · intro r hr
    have hp := ((apply_filters_mem results filters r).mp hr).2
    unfold passes_filters at hp
    simp only [Bool.and_eq_true] at hp
    obtain ⟨⟨⟨⟨⟨hct, hcat⟩, hdf⟩, hdt⟩, hsrc⟩, hsim⟩ := hp
    refine ⟨?_, ?_, by simpa [min_similarity_ok] using hsim⟩
    · intro d hd ht
      rw [date_from_ok, hd, ht] at hdf
      simp at hdf
    · intro d hd ht
      rw [date_to_ok, hd, ht] at hdt
      simp at hdt
  · intro h
    exact pythonTake_length_le _ _ h

/-- Witness for `filter_pagination_spec` at a concrete input. -/
theorem filter_pagination_spec_witness :
    ((post_process [] ({} : SearchFilter)).length : Int) ≤ ({} : SearchFilter).max_results :=
  (filter_pagination_spec [] {}).2.2.2 (by norm_num)

/-! ### Claim C9: hybrid results are a deduplicated union of the two
candidate sets -/

theorem key_ignores_similarity (hashFn : String → Int) (r : SearchResult) (x : ℚ) :
    generate_result_key hashFn { r with similarity := x } = generate_result_key hashFn r := rfl

/-- Invariant of the fusion map: pairwise-distinct keys, every stored value
keyed by its own identity key, and every key drawn from the allowed set. -/
def fuse_inv (hashFn : String → Int) (A : List String) (d : List (String × SearchResult)) : Prop :=
  (d.map Prod.fst).Nodup ∧
    ∀ p ∈ d, generate_result_key hashFn p.2 = p.1 ∧ p.1 ∈ A

theorem insSem_inv (hashFn : String → Int) (A : List String) (d : List (String × SearchResult))
    (r : SearchResult) (h : fuse_inv hashFn A d) (hr : generate_result_key hashFn r ∈ A) :
    fuse_inv hashFn A (insSem hashFn d r) := by
  obtain ⟨hn, hp⟩ := h
  exact ⟨dictInsert_keys_nodup _ _ _ hn,
    dictInsert_forall _ d _ _ hp ⟨key_ignores_similarity hashFn r _, hr⟩⟩

theorem insKw_inv (hashFn : String → Int) (A : List String) (d : List (String × SearchResult))
    (r : SearchResult) (h : fuse_inv hashFn A d) (hr : generate_result_key hashFn r ∈ A) :
    fuse_inv hashFn A (insKw hashFn d r) := by
  obtain ⟨hn, hp⟩ := h
  unfold insKw
  dsimp only
  cases hl : lookupA d (generate_result_key hashFn r) with
  | none => exact ⟨dictInsert_keys_nodup _ _ _ hn, dictInsert_forall _ d _ _ hp ⟨rfl, hr⟩⟩
  | some existing =>
    have hpe := hp _ (lookupA_mem _ _ _ hl)
    exact ⟨dictInsert_keys_nodup _ _ _ hn,
      dictInsert_forall _ d _ _ hp
        ⟨(key_ignores_similarity hashFn existing _).trans hpe.1, hpe.2⟩⟩

theorem foldl_insSem_inv (hashFn : String → Int) (A : List String) (sem : List SearchResult)
    (d : List (String × SearchResult)) (hd : fuse_inv hashFn A d)
    (hA : ∀ r ∈ sem, generate_result_key hashFn r ∈ A) :
    fuse_inv hashFn A (sem.foldl (insSem hashFn) d) := by
  induction sem generalizing d with
  | nil => exact hd
  | cons r rest ih =>
    apply ih
    · exact insSem_inv hashFn A d r hd (hA r (List.mem_cons_self r rest))
    · exact fun r2 h2 => hA r2 (List.mem_cons_of_mem r h2)

theorem foldl_insKw_inv (hashFn : String → Int) (A : List String) (kw : List SearchResult)
    (d : List (String × SearchResult)) (hd : fuse_inv hashFn A d)
    (hA : ∀ r ∈ kw, generate_result_key hashFn r ∈ A) :
    fuse_inv hashFn A (kw.foldl (insKw hashFn) d) := by
  induction kw generalizing d with
  | nil => exact hd
  | cons r rest ih =>
    apply ih
    · exact insKw_inv hashFn A d r hd (hA r (List.mem_cons_self r rest))
    · exact fun r2 h2 => hA r2 (List.mem_cons_of_mem r h2)

theorem hybrid_fuse_inv (hashFn : String → Int) (sem kw : List SearchResult) :
    fuse_inv hashFn (sem.map (generate_result_key hashFn) ++ kw.map (generate_result_key hashFn))
      (kw.foldl (insKw hashFn) (sem.foldl (insSem hashFn) [])) := by
  apply foldl_insKw_inv
  · apply foldl_insSem_inv
    · exact ⟨List.nodup_nil, by simp⟩
    · intro r hr
      exact List.mem_append_left _ (List.mem_map_of_mem _ hr)
  · intro r hr
    exact List.mem_append_right _ (List.mem_map_of_mem _ hr)

theorem hybrid_fuse_keys_nodup (hashFn : String → Int) (sem kw : List SearchResult) :
    ((hybrid_fuse hashFn sem kw).map (generate_result_key hashFn)).Nodup := by
  obtain ⟨hn, hp⟩ := hybrid_fuse_inv hashFn sem kw
  unfold hybrid_fuse
  rw [List.map_map]
  have heq : (kw.foldl (insKw hashFn) (sem.foldl (insSem hashFn) [])).map
      (generate_result_key hashFn ∘ Prod.snd)
      = (kw.foldl (insKw hashFn) (sem.foldl (insSem hashFn) [])).map Prod.fst :=
    List.map_congr_left (fun p hpm => (hp p hpm).1)
  rw [heq]
  exact hn

theorem hybrid_fuse_provenance (hashFn : String → Int) (sem kw : List SearchResult)
    (r : SearchResult) (hr : r ∈ hybrid_fuse hashFn sem kw) :
    ∃ c, (c ∈ sem ∨ c ∈ kw) ∧
      generate_result_key hashFn c = generate_result_key hashFn r := by
  obtain ⟨hn, hp⟩ := hybrid_fuse_inv hashFn sem kw
  unfold hybrid_fuse at hr
  obtain ⟨p, hpm, hps⟩ := List.mem_map.mp hr
  obtain ⟨hk, hA⟩ := hp p hpm
  rcases List.mem_append.mp hA with hL | hR
  · obtain ⟨c, hc, hck⟩ := List.mem_map.mp hL
    exact ⟨c, Or.inl hc, by rw [hck, ← hk, hps]⟩
  · obtain ⟨c, hc, hck⟩ := List.mem_map.mp hR
    exact ⟨c, Or.inr hc, by rw [hck, ← hk, hps]⟩

theorem post_process_map_nodup (f : SearchResult → String) (results : List SearchResult)
    (filters : SearchFilter) (h : (results.map f).Nodup) :
    ((post_process results filters).map f).Nodup := by
  unfold post_process
  have h1 : ((apply_filters results filters).map f).Nodup :=
    ((apply_filters_sublist results filters).map f).nodup h
  have hp : (rank_results (apply_filters results filters)).Perm
      (apply_filters results filters) := List.mergeSort_perm _ _
  have h2 := (hp.map f).nodup_iff.mpr h1
  exact ((pythonTake_sublist _ _).map f).nodup h2

theorem post_process_subset (results : List SearchResult) (filters : SearchFilter)
    (r : SearchResult) (h : r ∈ post_process results filters) : r ∈ results := by
  unfold post_process at h
  have h2 := (pythonTake_sublist _ _).subset h
  unfold rank_results at h2
  rw [List.mem_mergeSort] at h2
  exact (apply_filters_sublist results filters).subset h2

/-- Claim C9: every result of a hybrid-mode search (fusion followed by the
filter/rank/truncate pipeline) carries the content-identity key of some
semantic or keyword candidate, and no two results — already in the fused
list, and hence in the final list — share the same content-identity key.
The statement holds for every process hash function. -/
theorem hybrid_dedup_union (hashFn : String → Int) (sem kw : List SearchResult)
    (filters : SearchFilter) :
    (∀ r ∈ post_process (hybrid_fuse hashFn sem kw) filters,
      ∃ c, (c ∈ sem ∨ c ∈ kw) ∧
        generate_result_key hashFn c = generate_result_key hashFn r) ∧
    ((hybrid_fuse hashFn sem kw).map (generate_result_key hashFn)).Nodup ∧
    ((post_process (hybrid_fuse hashFn sem kw) filters).map
      (generate_result_key hashFn)).Nodup := by
  refine ⟨?_, hybrid_fuse_keys_nodup hashFn sem kw, ?_⟩
  · intro r hr
    exact hybrid_fuse_provenance hashFn sem kw r (post_process_subset _ filters r hr)
  · exact post_process_map_nodup _ _ filters (hybrid_fuse_keys_nodup hashFn sem kw)

/-- Witness for `hybrid_dedup_union` at a concrete input. -/
theorem hybrid_dedup_union_witness :
    ((hybrid_fuse (fun _ => 0) [] []).map (generate_result_key (fun _ => 0))).Nodup :=
  (hybrid_dedup_union (fun _ => 0) [] [] {}).2.1

/-! ### Claim C1: the fusion boost is NOT monotone in the claimed sense -/

theorem boostScore_nonneg (s : ℚ) (h : 0 ≤ s) : 0 ≤ boostScore s := by
  unfold boostScore
  rw [ratMin_eq_min]
  exact le_min (by norm_num) (by nlinarith)

theorem boostScore_le_one (s : ℚ) : boostScore s ≤ 1 := by
  unfold boostScore
  rw [ratMin_eq_min]
  exact min_le_left _ _

theorem combine_ge_avg (a k : ℚ) (ha0 : 0 ≤ a) (ha1 : a ≤ 1) (hk0 : 0 ≤ k) (hk1 : k ≤ 1) :
    (a + k) / 2 ≤ combineScores a k := by
  unfold combineScores
  rw [ratMin_eq_min]
  rcases le_total ((a + k) / 2 * (11/10)) 1 with h | h
  · rw [min_eq_right h]
    nlinarith
  · rw [min_eq_left h]
    linarith

theorem lookupA_insSem_ne (hashFn : String → Int) (d : List (String × SearchResult))
    (r : SearchResult) (K : String) (h : generate_result_key hashFn r ≠ K) :
    lookupA (insSem hashFn d r) K = lookupA d K := by
  unfold insSem
  rw [lookupA_dictInsert, if_neg (Ne.symm h)]

theorem lookupA_insKw_ne (hashFn : String → Int) (d : List (String × SearchResult))
    (r : SearchResult) (K : String) (h : generate_result_key hashFn r ≠ K) :
    lookupA (insKw hashFn d r) K = lookupA d K := by
  unfold insKw
  dsimp only
  cases hl : lookupA d (generate_result_key hashFn r) with
  | none => rw [lookupA_dictInsert, if_neg (Ne.symm h)]
  | some existing => rw [lookupA_dictInsert, if_neg (Ne.symm h)]

theorem foldl_insSem_untouched (hashFn : String → Int) (K : String) (sem : List SearchResult)
    (d : List (String × SearchResult))
    (h : ∀ r ∈ sem, generate_result_key hashFn r ≠ K) :
    lookupA (sem.foldl (insSem hashFn) d) K = lookupA d K := by
  induction sem generalizing d with
  | nil => rfl
  | cons r rest ih =>
    rw [List.foldl_cons]
    calc lookupA (rest.foldl (insSem hashFn) (insSem hashFn d r)) K
        = lookupA (insSem hashFn d r) K :=
          ih _ (fun r2 h2 => h r2 (List.mem_cons_of_mem r h2))
      _ = lookupA d K := lookupA_insSem_ne hashFn d r K (h r (List.mem_cons_self r rest))

theorem foldl_insKw_untouched (hashFn : String → Int) (K : String) (kw : List SearchResult)
    (d : List (String × SearchResult))
    (h : ∀ r ∈ kw, generate_result_key hashFn r ≠ K) :
    lookupA (kw.foldl (insKw hashFn) d) K = lookupA d K := by
  induction kw generalizing d with
  | nil => rfl
  | cons r rest ih =>
    rw [List.foldl_cons]
    calc lookupA (rest.foldl (insKw hashFn) (insKw hashFn d r)) K
        = lookupA (insKw hashFn d r) K :=
          ih _ (fun r2 h2 => h r2 (List.mem_cons_of_mem r h2))
      _ = lookupA d K := lookupA_insKw_ne hashFn d r K (h r (List.mem_cons_self r rest))

theorem foldl_insSem_single (hashFn : String → Int) (K : String) (sem : List SearchResult)
    (d : List (String × SearchResult)) (rs : SearchResult)
    (h : sem.filter (fun r => decide (generate_result_key hashFn r = K)) = [rs]) :
    lookupA (sem.foldl (insSem hashFn) d) K =
      some { rs with similarity := boostScore rs.similarity } := by
  induction sem generalizing d with
  | nil => simp at h
  | cons r rest ih =>
    by_cases hr : generate_result_key hashFn r = K
    · rw [List.filter_cons_of_pos (by simpa using hr)] at h
      injection h with hre hrest
      rw [List.foldl_cons]
      rw [foldl_insSem_untouched hashFn K rest _ ?hnone]
      case hnone =>
        intro r2 h2
        have h3 := List.filter_eq_nil_iff.mp hrest r2 h2
        simpa using h3
      unfold insSem
      rw [lookupA_dictInsert, if_pos hr.symm, hre]
    · rw [List.filter_cons_of_neg (by simpa using hr)] at h
      rw [List.foldl_cons]
      exact ih _ h

theorem foldl_insKw_single (hashFn : String → Int) (K : String) (kw : List SearchResult)
    (d : List (String × SearchResult)) (rk : SearchResult)
    (h : kw.filter (fun r => decide (generate_result_key hashFn r = K)) = [rk]) :
    lookupA (kw.foldl (insKw hashFn) d) K =
      some (match lookupA d K with
            | some existing =>
              { existing with similarity := combineScores existing.similarity rk.similarity }
            | none => rk) := by
  induction kw generalizing d with
  | nil => simp at h
  | cons r rest ih =>
    by_cases hr : generate_result_key hashFn r = K
    · rw [List.filter_cons_of_pos (by simpa using hr)] at h
      injection h with hre hrest
      rw [List.foldl_cons]
      rw [foldl_insKw_untouched hashFn K rest _ ?hnone]
      case hnone =>
        intro r2 h2
        have h3 := List.filter_eq_nil_iff.mp hrest r2 h2
        simpa using h3
      unfold insKw
      dsimp only
      rw [hr, hre]
      cases hl : lookupA d K with
      | none => rw [lookupA_dictInsert, if_pos rfl]
      | some existing => rw [lookupA_dictInsert, if_pos rfl]
    · rw [List.filter_cons_of_neg (by simpa using hr)] at h
      rw [List.foldl_cons]
      rw [ih _ h, lookupA_insKw_ne hashFn d r K hr]

/-- Claim C1 (amended): for an item whose identity key occurs exactly once in
the semantic candidates (`rs`) and exactly once in the keyword candidates
(`rk`), both scores in [0, 1], the fused list carries that item at the
combined score `min(1, avg(boosted, keyword) * 1.1)`, which is never lower
than the AVERAGE of the boosted semantic score and the keyword score — and
hence never lower than the lesser of the two — though it can be lower than
the best single-signal score. -/
theorem hybrid_fuse_combined_score (hashFn : String → Int) (sem kw : List SearchResult)
    (rs rk : SearchResult) (K : String)
    (hs : sem.filter (fun r => decide (generate_result_key hashFn r = K)) = [rs])
    (hk : kw.filter (fun r => decide (generate_result_key hashFn r = K)) = [rk])
    (h0s : 0 ≤ rs.similarity) (h0k : 0 ≤ rk.similarity) (h1k : rk.similarity ≤ 1) :
    ∃ r ∈ hybrid_fuse hashFn sem kw,
      generate_result_key hashFn r = K ∧
      r.similarity = combineScores (boostScore rs.similarity) rk.similarity ∧
      (boostScore rs.similarity + rk.similarity) / 2 ≤ r.similarity ∧
      min (boostScore rs.similarity) rk.similarity ≤ r.similarity := by
  have h1 := foldl_insSem_single hashFn K sem [] rs hs
  have h2 := foldl_insKw_single hashFn K kw (sem.foldl (insSem hashFn) []) rk hk
  rw [h1] at h2
  dsimp only at h2
  have hmem := lookupA_mem _ K _ h2
  have hKrs : generate_result_key hashFn rs = K := by
    have hin : rs ∈ sem.filter (fun r => decide (generate_result_key hashFn r = K)) := by
      rw [hs]
      exact List.mem_singleton_self rs
    have := (List.mem_filter.mp hin).2
    simpa using this
  refine ⟨{ rs with similarity := combineScores (boostScore rs.similarity) rk.similarity },
    ?_, ?_, rfl, ?_, ?_⟩
  · unfold hybrid_fuse
    exact List.mem_map_of_mem Prod.snd hmem
  · exact (key_ignores_similarity hashFn rs _).trans hKrs
  · exact combine_ge_avg (boostScore rs.similarity) rk.similarity
      (boostScore_nonneg rs.similarity h0s) (boostScore_le_one rs.similarity) h0k h1k
  · calc min (boostScore rs.similarity) rk.similarity
        ≤ (boostScore rs.similarity + rk.similarity) / 2 := by
          rcases min_le_iff.mpr (Or.inl (le_refl (boostScore rs.similarity))) with h3
          have h4 := min_le_left (boostScore rs.similarity) rk.similarity
          have h5 := min_le_right (boostScore rs.similarity) rk.similarity
          linarith
      _ ≤ _ := combine_ge_avg (boostScore rs.similarity) rk.similarity
          (boostScore_nonneg rs.similarity h0s) (boostScore_le_one rs.similarity) h0k h1k

/-- The process hash used in concrete evaluations. -/
def h0 : String → Int := fun _ => 0

/-- A semantic candidate at similarity 1. -/
def rs0 : SearchResult :=
  { id := ("1"), title := ("t"), content := ("c"),
    content_type := ContentType.document, similarity := 1 }

/-- A keyword candidate for the same content identity at similarity 0. -/
def rk0 : SearchResult :=
  { id := ("2"), title := ("t"), content := ("c"),
    content_type := ContentType.document, similarity := 0 }

/-- Claim C1 counterexample: an item found by both signals, boosted semantic
score 1 and keyword score 0, fuses to `min(1, avg(1, 0) * 1.1) = 0.55`,
strictly below its best single-signal score 1 — the claimed monotonicity
fails. -/
theorem hybrid_boost_not_monotone_cex :
    (hybrid_fuse h0 [rs0] [rk0]).map SearchResult.similarity = [11/20] ∧
    boostScore rs0.similarity = 1 ∧
    rk0.similarity = 0 ∧
    (11 : ℚ)/20 < max (boostScore rs0.similarity) rk0.similarity := by
  have hkey : generate_result_key h0 rk0 = generate_result_key h0 rs0 := rfl
  refine ⟨?_, ?_, rfl, ?_⟩
  · simp only [hybrid_fuse, List.foldl_cons, List.foldl_nil, insSem, insKw, dictInsert,
      lookupA, hkey, if_pos, List.map_cons, List.map_nil]
    norm_num [boostScore, combineScores, ratMin, rs0, rk0]
  · norm_num [boostScore, ratMin, rs0]
  · norm_num [boostScore, ratMin, rs0, rk0]

/-- Witness for `hybrid_fuse_combined_score` at concrete singleton inputs. -/
theorem hybrid_fuse_combined_score_witness :
    ∃ r ∈ hybrid_fuse h0 [rs0] [rk0],
      generate_result_key h0 r = generate_result_key h0 rs0 ∧
      r.similarity = combineScores (boostScore rs0.similarity) rk0.similarity ∧
      (boostScore rs0.similarity + rk0.similarity) / 2 ≤ r.similarity ∧
      min (boostScore rs0.similarity) rk0.similarity ≤ r.similarity :=
  hybrid_fuse_combined_score h0 [rs0] [rk0] rs0 rk0 (generate_result_key h0 rs0)
    (by simp) (by simp [show generate_result_key h0 rk0 = generate_result_key h0 rs0 from rfl])
    (by norm_num [rs0]) (by norm_num [rk0]) (by norm_num [rk0])

end Mamute
